import Mathlib

/-
Verification of the Google Cloud Build command wrapper (src/main.go) against
its natural-language specification.

The Go program is shallowly embedded below.  Time instants and durations are
modelled as integers (Unix seconds): the source compares second-granularity
instants built with time.Unix, and the configured lead time is truncated to
whole seconds via int64(timeoutDur.Seconds()).  Signals are modelled by their
linux/amd64 numbers, the documented build target (GOOS=linux GOARCH=amd64 in
the README).
-/

namespace Gcbw

/-! ## Signal catalog (src/main.go lines 43-74)

The validSignals map, keys exactly as in the source, values the linux/amd64
numbers of the corresponding syscall constants.  Note that on linux/amd64
syscall.SIGIOT and syscall.SIGABRT are the same signal, number 6. -/

def validSignals : List (String × Nat) :=
  [ ("SIGABRT", 6), ("SIGALRM", 14), ("SIGBUS", 7), ("SIGCHLD", 17),
    ("SIGCONT", 18), ("SIGFPE", 8), ("SIGHUP", 1), ("SIGILL", 4),
    ("SIGINT", 2), ("SIGIO", 29), ("SIGIOT", 6), ("SIGKILL", 9),
    ("SIGPIPE", 13), ("SIGPROF", 27), ("SIGQUIT", 3), ("SIGSEGV", 11),
    ("SIGSTOP", 19), ("SIGSYS", 31), ("SIGTERM", 15), ("SIGTRAP", 5),
    ("SIGTSTP", 20), ("SIGTTIN", 21), ("SIGTTOU", 22), ("SIGURG", 23),
    ("SIGUSR1", 10), ("SIGUSR2", 12), ("SIGVTALRM", 26), ("SIGWINCH", 28),
    ("SIGXCPU", 24), ("SIGXFSZ", 25) ]

/-- Go two-valued map read `v, ok := validSignals[name]`: some value iff the
key is present.  Key equality in a Go map over strings is exact and
case-sensitive, which List.find? over the catalog reproduces. -/
def lookupSignal (name : String) : Option Nat :=
  (validSignals.find? (fun p => p.1 = name)).map Prod.snd

/-- Go one-valued map read `validSignals[name]`: the zero value of os.Signal
models the missing-key result, as in the expression
`cmd.Process.Signal(validSignals[timeoutSigStr])` of the timer branch. -/
def mapGet (name : String) : Nat :=
  (lookupSignal name).getD 0

def catalogKeys : List String := validSignals.map Prod.fst

/-! ## Deadline resolver (src/main.go lines 131-142 and 202)

getBuildSignalTime computes
  buildTimeoutTime = resp.StartTime.Seconds + resp.Timeout.Seconds
  signalTime       = time.Unix(buildTimeoutTime - int64(timeoutDur.Seconds()), 0)
and fails iff signalTime.Before(now), a strict comparison.  On success main
arms the timer with signalTime.Sub(now).  The single injected `now` below
stands for the wall-clock sample, as the specification requires the resolver
to be testable with explicit values. -/

def signalInstant (startSec timeoutSec leadSec : Int) : Int :=
  startSec + timeoutSec - leadSec

/-- Embeds getBuildSignalTime: none models the past-deadline error return,
some t the returned *time.Time. -/
def getBuildSignalTime (startSec timeoutSec leadSec now : Int) : Option Int :=
  if signalInstant startSec timeoutSec leadSec < now then none
  else some (signalInstant startSec timeoutSec leadSec)

/-- The duration main arms time.After with: signalTime.Sub(now), available
only when resolution succeeded. -/
def adjustedTimeout (startSec timeoutSec leadSec now : Int) : Option Int :=
  (getBuildSignalTime startSec timeoutSec leadSec now).map (fun t => t - now)

/-- In main, a resolution error hits ErrorLogger.Fatalln before runCommand is
reached, so the child is spawned iff resolution succeeded. -/
def childSpawned (startSec timeoutSec leadSec now : Int) : Bool :=
  (getBuildSignalTime startSec timeoutSec leadSec now).isSome

/-! ## Process supervisor (src/main.go lines 83-111)

runCommand starts the child, has one goroutine deliver the result of cmd.Run
into the one-shot buffered channel `done`, and selects over three event
sources.  In the forwarded-signal and timer branches it stores the result of
cmd.Process.Signal in `err`, receives from `done` a second time discarding
the received value, and returns `err`. -/

/-- How the child eventually terminates. -/
inductive ChildTermination where
  | normal (code : Nat)
  | signaled (sig : Nat)
deriving DecidableEq, Repr

/-- The Go error value runCommand returns: goOk is nil, exitError the
exec.ExitError carrying the child termination (cmd.Run yields it for every
non-zero exit and for a signaled death), deliveryError a non-nil non-ExitError
error from cmd.Process.Signal. -/
inductive RunError where
  | goOk
  | exitError (t : ChildTermination)
  | deliveryError
deriving DecidableEq, Repr

/-- Result of cmd.Run delivered into the done channel: nil exactly when the
child exited normally with status 0. -/
def childRunError : ChildTermination → RunError
  | .normal 0 => .goOk
  | .normal (n + 1) => .exitError (.normal (n + 1))
  | .signaled s => .exitError (.signaled s)

/-- Which of the three armed event sources the select consumes first. -/
inductive FirstEvent where
  | childDone
  | forwarded (sig : Nat)
  | timer
deriving DecidableEq, Repr

/-- Observable actions of one supervision run, in program order. -/
inductive Action where
  | startChild
  | sendSignal (sig : Nat)
  | consumeDone
  | ret (e : RunError)
deriving DecidableEq, Repr

/-- Result of the cmd.Process.Signal call: true models a nil error. -/
abbrev DeliveryOk := Bool

def signalResult (deliveryOk : DeliveryOk) : RunError :=
  if deliveryOk then .goOk else .deliveryError

/-- Trace of runCommand, by the branch the select takes.  In the childDone
branch the received run error is returned at once.  In the other two branches
the signal is sent (the timer branch sends validSignals[timeoutSigStr], the
forwarded branch the received signal verbatim), then line 109 receives from
done and discards the value, and line 110 returns the stored Signal result. -/
def runCommandTrace (fe : FirstEvent) (t : ChildTermination)
    (deliveryOk : DeliveryOk) (timeoutSigStr : String) : List Action :=
  match fe with
  | .childDone =>
      [.startChild, .consumeDone, .ret (childRunError t)]
  | .forwarded s =>
      [.startChild, .sendSignal s, .consumeDone, .ret (signalResult deliveryOk)]
  | .timer =>
      [.startChild, .sendSignal (mapGet timeoutSigStr), .consumeDone,
        .ret (signalResult deliveryOk)]

/-- The error value runCommand returns: the payload of the final ret action
of the trace. -/
def runCommandResult (fe : FirstEvent) (t : ChildTermination)
    (deliveryOk : DeliveryOk) (timeoutSigStr : String) : RunError :=
  match (runCommandTrace fe t deliveryOk timeoutSigStr).getLast? with
  | some (.ret e) => e
  | _ => .goOk

/-! ## Exit translation in main (src/main.go lines 210-220)

main inspects the error from runCommand: nil prints the success line and the
process ends with status 0; an exec.ExitError makes main call
os.Exit(exitError.ExitCode()); any other error hits ErrorLogger.Fatalln,
which is os.Exit(1). -/

/-- exec.ExitError.ExitCode(): the exit status for a normal exit, -1 for a
child terminated by a signal. -/
def goExitCode : ChildTermination → Int
  | .normal c => (c : Int)
  | .signaled _ => -1

/-- The argument the supervisor process passes to os.Exit (0 when main falls
through the success branch). -/
def mainExitArg : RunError → Int
  | .goOk => 0
  | .exitError t => goExitCode t
  | .deliveryError => 1

/-- The 8-bit exit status the operating system reports to the caller of the
supervisor for a given os.Exit argument (exit status modulo 256, so -1 is
observed as 255). -/
def osStatus (code : Int) : Nat :=
  (code % 256).toNat

/-! ## Signal plumbing in main (src/main.go lines 204-208)

signal.Notify(caughtSigsChan) with no signal arguments relays every incoming
signal to the channel; signal.Reset(syscall.SIGCHLD) then removes SIGCHLD.
SIGKILL (9) and SIGSTOP (19) can never be caught by the process.  No catalog
membership test appears anywhere on this path. -/

def sigCHLDNum : Nat := 17

def uncatchableSignals : List Nat := [9, 19]

/-- Whether an incoming OS signal reaches caughtSigsChan. -/
def deliveredToChan (sig : Nat) : Bool :=
  !(uncatchableSignals.contains sig) && sig != sigCHLDNum

/-- The signal, if any, the supervisor sends to the child when the incoming
signal sig arrives and wins the select: runCommand forwards recdSig verbatim
(line 102), with no catalog lookup. -/
def forwardedToChild (sig : Nat) : Option Nat :=
  if deliveredToChan sig then some sig else none

/-! ## Argument parsing (src/main.go lines 145-181)

Only the validation chain matters to the claims: help requested, fewer than 3
positional arguments, a timeout-signal name missing from validSignals, and an
unparseable duration each abort; otherwise parsing succeeds with the
configured signal name. -/

inductive ParseOutcome where
  | helpRequested
  | tooFewArgs
  | badSignal
  | badDuration
  | parsedOk (sigName : String)
deriving DecidableEq, Repr

def parseArgs (help : Bool) (nPositional : Nat) (sigName : String)
    (durationParses : Bool) : ParseOutcome :=
  if help then .helpRequested
  else if nPositional < 3 then .tooFewArgs
  else if (lookupSignal sigName).isNone then .badSignal
  else if !durationParses then .badDuration
  else .parsedOk sigName

/-! ## Override exit code (repository feature absent from src/main.go)

Modelled from the spec: the optional override exit code (the README flag
-e / --timeout-exitcode, "non-zero exit code used if process is timed out;
overrides process exit code") is documented in the repository README but has
no implementation in the src/main.go snapshot.  Per the spec, the override,
when configured, replaces the child exit code exactly when the deadline
timer, not a forwarded external signal and not natural completion, caused
termination. -/

inductive TerminationPath where
  | natural
  | forwardedSignal
  | deadlineTimer
deriving DecidableEq, Repr

/-- Modelled from the spec: exit-code selection of the override feature.
childCode is the code the supervisor would otherwise use for the run. -/
def exitWithOverride (override : Option Int) (path : TerminationPath)
    (childCode : Int) : Int :=
  match path, override with
  | .deadlineTimer, some c => c
  | _, _ => childCode

/-! ## Helper lemmas -/

lemma lookupSignal_mem_keys {n : String} (h : (lookupSignal n).isSome = true) :
    n ∈ catalogKeys := by
  unfold lookupSignal at h
  cases hf : validSignals.find? (fun p => p.1 = n) with
  | none => rw [hf] at h; simp at h
  | some p =>
    have hmem := List.mem_of_find?_eq_some hf
    have hp := List.find?_some hf
    simp only [decide_eq_true_eq] at hp
    have : p.1 ∈ catalogKeys := List.mem_map_of_mem Prod.fst hmem
    rwa [hp] at this

lemma lookupSignal_ne_zero {n : String} {v : Nat} (h : lookupSignal n = some v) :
    v ≠ 0 := by
  unfold lookupSignal at h
  cases hf : validSignals.find? (fun p => p.1 = n) with
  | none => rw [hf] at h; simp at h
  | some p =>
    rw [hf] at h
    simp at h
    have hmem := List.mem_of_find?_eq_some hf
    have hall : ∀ q ∈ validSignals, q.2 ≠ 0 := by decide
    have := hall p hmem
    omega

/-! ## Claim theorems -/

/-- C4 counterexample: at exact equality now = terminationInstant - leadTime
the source succeeds instead of failing, because signalTime.Before(now) is a
strict comparison.  With startSec = 100, timeoutSec = 50, leadSec = 10 the
signal instant is 140; resolving at now = 140 returns the instant (so the
timer is armed with duration 0) and the child is spawned, refuting the claim
that resolution fails and no child is spawned whenever
now >= terminationInstant - leadTime. -/
theorem C4_counterexample :
    signalInstant 100 50 10 = 140
    ∧ getBuildSignalTime 100 50 10 140 = some 140
    ∧ adjustedTimeout 100 50 10 140 = some 0
    ∧ childSpawned 100 50 10 140 = true := by
  decide

/-- C4 (amended): resolution fails with the past-deadline error and no child
is spawned exactly when now is strictly after terminationInstant - leadTime;
at exact equality resolution succeeds and the timer is armed with duration
zero (firing immediately), the child being spawned. -/
theorem C4_past_deadline :
    ∀ startSec timeoutSec leadSec now : Int,
      (signalInstant startSec timeoutSec leadSec < now →
        getBuildSignalTime startSec timeoutSec leadSec now = none
        ∧ childSpawned startSec timeoutSec leadSec now = false)
      ∧ (now = signalInstant startSec timeoutSec leadSec →
        adjustedTimeout startSec timeoutSec leadSec now = some 0
        ∧ childSpawned startSec timeoutSec leadSec now = true) := by
  intro a b c n
  constructor
  · intro h
    have hlt : signalInstant a b c < n := h
    constructor
    · unfold getBuildSignalTime
      rw [if_pos hlt]
    · unfold childSpawned getBuildSignalTime
      rw [if_pos hlt]
      rfl
  · intro h
    have hnlt : ¬ signalInstant a b c < n := by omega
    constructor
    · unfold adjustedTimeout getBuildSignalTime
      rw [if_neg hnlt]
      show some (signalInstant a b c - n) = some 0
      simp only [Option.some.injEq]
      omega
    · unfold childSpawned getBuildSignalTime
      rw [if_neg hnlt]
      rfl

/-- C4 witness: instantiating the amended theorem at concrete inputs, both on
the strictly-late side and at exact equality. -/
theorem C4_past_deadline_witness :
    (getBuildSignalTime 100 50 10 141 = none
      ∧ childSpawned 100 50 10 141 = false)
    ∧ (adjustedTimeout 100 50 10 140 = some 0
      ∧ childSpawned 100 50 10 140 = true) :=
  ⟨(C4_past_deadline 100 50 10 141).1 (by decide),
   (C4_past_deadline 100 50 10 140).2 (by decide)⟩

/-- C5: whenever now is strictly before terminationInstant - leadTime,
resolution succeeds, the child is spawned, and the armed timer duration is
positive and exactly terminationInstant - leadTime - now (here
terminationInstant = startSec + timeoutSec as main computes it from the
fetched build). -/
theorem C5_resolve_future :
    ∀ startSec timeoutSec leadSec now : Int,
      now < signalInstant startSec timeoutSec leadSec →
      adjustedTimeout startSec timeoutSec leadSec now
        = some (startSec + timeoutSec - leadSec - now)
      ∧ 0 < startSec + timeoutSec - leadSec - now
      ∧ childSpawned startSec timeoutSec leadSec now = true := by
  intro a b c n h
  have hnlt : ¬ signalInstant a b c < n := by
    unfold signalInstant at *; omega
  refine ⟨?_, ?_, ?_⟩
  · unfold adjustedTimeout getBuildSignalTime
    rw [if_neg hnlt]
    rfl
  · unfold signalInstant at h; omega
  · unfold childSpawned getBuildSignalTime
    rw [if_neg hnlt]
    rfl

/-- C5 witness: the theorem at startSec = 100, timeoutSec = 50, leadSec = 10,
now = 120, giving the positive duration 20. -/
theorem C5_resolve_future_witness :
    adjustedTimeout 100 50 10 120 = some 20
    ∧ (0 : Int) < 20
    ∧ childSpawned 100 50 10 120 = true := by
  have h := C5_resolve_future 100 50 10 120 (by decide)
  exact ⟨h.1, h.2.1, h.2.2⟩

/-- C6 counterexample: the catalog values are not pairwise distinct.  On the
documented linux/amd64 build target, SIGABRT and SIGIOT are the same signal
number 6, so two distinct catalog names look up to the same signal, refuting
the distinctness part of the claim. -/
theorem C6_counterexample :
    lookupSignal "SIGABRT" = some 6
    ∧ lookupSignal "SIGIOT" = some 6
    ∧ "SIGABRT" ≠ "SIGIOT" := by
  refine ⟨rfl, rfl, by decide⟩

/-- C6 (amended): every catalog name looks up successfully to a non-zero
signal; only exact catalog keys succeed (so the match is case-sensitive and
SIGBOGUS fails); the returned signals are pairwise distinct except for the
single SIGABRT and SIGIOT pair, which share signal 6. -/
theorem C6_catalog :
    (∀ n ∈ catalogKeys, (lookupSignal n).isSome = true)
    ∧ (∀ n v, lookupSignal n = some v → n ∈ catalogKeys ∧ v ≠ 0)
    ∧ lookupSignal "SIGBOGUS" = none
    ∧ lookupSignal "sigterm" = none
    ∧ lookupSignal "SIGABRT" = lookupSignal "SIGIOT"
    ∧ ((validSignals.filter (fun p => p.1 ≠ "SIGIOT")).map Prod.snd).Nodup := by
  refine ⟨by decide, ?_, rfl, rfl, rfl, by decide⟩
  intro n v h
  have hs : (lookupSignal n).isSome = true := by rw [h]; rfl
  exact ⟨lookupSignal_mem_keys hs, lookupSignal_ne_zero h⟩

/-- C6 witness: the amended theorem applied at concrete names. -/
theorem C6_catalog_witness :
    (lookupSignal "SIGTERM").isSome = true
    ∧ ("SIGHUP" ∈ catalogKeys ∧ (1 : Nat) ≠ 0) :=
  ⟨C6_catalog.1 "SIGTERM" (by decide),
   C6_catalog.2.1 "SIGHUP" 1 rfl⟩

/-- C1: evaluation at the failing input.  With the timer branch first,
successful signal delivery, and a child that then exits with code 3,
runCommand returns nil (the stored Signal result), so main takes the success
branch and the supervisor exits 0 even though the child-done value received
at line 109 carried a non-zero exec.ExitError: the child exit status is
replaced by the result of the signal-delivery attempt, contradicting the
claim and the stated intent of the program. -/
theorem C1_swallowed_exit_status :
    runCommandResult .timer (.normal 3) true "SIGTERM" = .goOk
    ∧ mainExitArg (runCommandResult .timer (.normal 3) true "SIGTERM") = 0
    ∧ childRunError (.normal 3) = .exitError (.normal 3)
    ∧ Action.consumeDone ∈ runCommandTrace .timer (.normal 3) true "SIGTERM" := by
  refine ⟨rfl, rfl, rfl, by decide⟩

/-- C3: in every supervision run, whichever event source the select consumes
first, a consumeDone action strictly precedes the return of runCommand (the
supervisor never returns before the child-done event was observed), and every
send-signal action is strictly followed by a consumeDone (the final
wait-for-exit happens after the signal has been sent). -/
theorem C3_done_before_return :
    (∀ (fe : FirstEvent) (t : ChildTermination) (d : DeliveryOk) (s : String)
        (k : Nat) (e : RunError),
      (runCommandTrace fe t d s).get? k = some (.ret e) →
      ∃ j, j < k ∧ (runCommandTrace fe t d s).get? j = some .consumeDone)
    ∧ (∀ (fe : FirstEvent) (t : ChildTermination) (d : DeliveryOk) (s : String)
        (i sg : Nat),
      (runCommandTrace fe t d s).get? i = some (.sendSignal sg) →
      ∃ j, i < j ∧ (runCommandTrace fe t d s).get? j = some .consumeDone) := by
  constructor
  · intro fe t d s k e h
    cases fe with
    | childDone =>
      rcases k with _ | _ | _ | k
      · simp [runCommandTrace] at h
      · simp [runCommandTrace] at h
      · exact ⟨1, by omega, rfl⟩
      · simp [runCommandTrace] at h
    | forwarded s0 =>
      rcases k with _ | _ | _ | _ | k
      · simp [runCommandTrace] at h
      · simp [runCommandTrace] at h
      · simp [runCommandTrace] at h
      · exact ⟨2, by omega, rfl⟩
      · simp [runCommandTrace] at h
    | timer =>
      rcases k with _ | _ | _ | _ | k
      · simp [runCommandTrace] at h
      · simp [runCommandTrace] at h
      · simp [runCommandTrace] at h
      · exact ⟨2, by omega, rfl⟩
      · simp [runCommandTrace] at h
  · intro fe t d s i sg h
    cases fe with
    | childDone =>
      rcases i with _ | _ | _ | i <;> simp [runCommandTrace] at h
    | forwarded s0 =>
      rcases i with _ | _ | _ | _ | i
      · simp [runCommandTrace] at h
      · exact ⟨2, by omega, rfl⟩
      · simp [runCommandTrace] at h
      · simp [runCommandTrace] at h
      · simp [runCommandTrace] at h
    | timer =>
      rcases i with _ | _ | _ | _ | i
      · simp [runCommandTrace] at h
      · exact ⟨2, by omega, rfl⟩
      · simp [runCommandTrace] at h
      · simp [runCommandTrace] at h
      · simp [runCommandTrace] at h

/-- C3 witness: the first part of the theorem instantiated on the timer
branch at the return index 3. -/
theorem C3_done_before_return_witness :
    ∃ j, j < 3 ∧ (runCommandTrace .timer (.normal 0) true "SIGTERM").get? j
      = some .consumeDone :=
  C3_done_before_return.1 .timer (.normal 0) true "SIGTERM" 3 .goOk rfl

/-- C9: evaluation at the failing input.  With a forwarded signal first and a
failing delivery, the child then exiting cleanly with status 0, runCommand
returns the delivery error; main sees a non-ExitError and calls
ErrorLogger.Fatalln, exiting 1.  Supervision did proceed to the wait step
(consumeDone is in the trace), but the run outcome is the delivery error, not
the child exit status 0, and the failure is logged fatally, not as a
warning. -/
theorem C9_delivery_error_fatal :
    runCommandResult (.forwarded 2) (.normal 0) false "SIGTERM" = .deliveryError
    ∧ mainExitArg (runCommandResult (.forwarded 2) (.normal 0) false "SIGTERM") = 1
    ∧ childRunError (.normal 0) = .goOk
    ∧ Action.consumeDone ∈ runCommandTrace (.forwarded 2) (.normal 0) false "SIGTERM" := by
  refine ⟨rfl, rfl, rfl, by decide⟩

/-- C7 counterexample: SIGPWR, number 30 on linux/amd64, is not in the
catalog (no catalog entry has value 30 and SIGPWR is not a key), yet an
incoming signal 30 reaches the channel and is forwarded verbatim to the
child instead of being dropped. -/
theorem C7_counterexample :
    forwardedToChild 30 = some 30
    ∧ (30 : Nat) ∉ validSignals.map Prod.snd
    ∧ "SIGPWR" ∉ catalogKeys := by
  refine ⟨rfl, by decide, by decide⟩

/-- C7 (amended): an incoming signal reaches the forwarding channel exactly
when it is catchable (not SIGKILL 9, not SIGSTOP 19) and is not SIGCHLD 17,
the one signal main resets; every signal that reaches the channel is
forwarded to the child verbatim, with no catalog membership test, so
non-catalog signals are propagated rather than dropped. -/
theorem C7_forwarding :
    ∀ sig : Nat,
      (deliveredToChan sig = true ↔ (sig ≠ 9 ∧ sig ≠ 19 ∧ sig ≠ 17))
      ∧ (deliveredToChan sig = true →
          forwardedToChild sig = some sig
          ∧ ∀ (t : ChildTermination) (d : DeliveryOk) (s : String),
              Action.sendSignal sig ∈ runCommandTrace (.forwarded sig) t d s)
      ∧ (deliveredToChan sig = false → forwardedToChild sig = none) := by
  intro sig
  refine ⟨?_, ?_, ?_⟩
  · unfold deliveredToChan uncatchableSignals sigCHLDNum
    constructor
    · intro h
      simp at h
      tauto
    · intro h
      simp
      tauto
  · intro h
    refine ⟨by simp [forwardedToChild, h], ?_⟩
    intro t d s
    simp [runCommandTrace]
  · intro h
    simp [forwardedToChild, h]

/-- C7 witness: the amended theorem applied at the non-catalog signal 30. -/
theorem C7_forwarding_witness :
    forwardedToChild 30 = some 30
    ∧ Action.sendSignal 30 ∈ runCommandTrace (.forwarded 30) (.normal 0) true "SIGTERM" :=
  ⟨((C7_forwarding 30).2.1 (by decide)).1,
   ((C7_forwarding 30).2.1 (by decide)).2 (.normal 0) true "SIGTERM"⟩

/-- C8 counterexample: a child killed by signal 9 and a child exiting
normally with code 255 produce the same observable supervisor exit status
255, because exec.ExitError.ExitCode() maps a signaled death to -1 and
os.Exit reports -1 as the 8-bit status 255: the signaled termination is
collapsed into the same exit-code channel as a normal exit. -/
theorem C8_counterexample :
    osStatus (mainExitArg (childRunError (.signaled 9)))
      = osStatus (mainExitArg (childRunError (.normal 255)))
    ∧ mainExitArg (childRunError (.signaled 9)) = -1
    ∧ mainExitArg (childRunError (.normal 255)) = 255 := by
  refine ⟨by decide, rfl, rfl⟩

/-- C8 (amended): a signaled child is reported through the exit-code channel,
not a separate one: main passes -1 (the ExitCode of a signaled death) to
os.Exit, observed as status 255.  That distinguishes it from every normal
exit with code below 255 but coincides with a normal exit of code 255. -/
theorem C8_signaled_exit :
    ∀ sg : Nat,
      mainExitArg (childRunError (.signaled sg)) = -1
      ∧ osStatus (mainExitArg (childRunError (.signaled sg))) = 255
      ∧ (∀ c : Nat, c < 255 →
          osStatus (mainExitArg (childRunError (.normal c))) ≠ 255)
      ∧ osStatus (mainExitArg (childRunError (.normal 255))) = 255 := by
  intro sg
  refine ⟨rfl, rfl, ?_, by decide⟩
  intro c hc
  match c with
  | 0 => decide
  | Nat.succ m =>
    simp only [childRunError, mainExitArg, goExitCode, osStatus]
    omega

/-- C8 witness: the amended theorem applied at signal 9 and normal exit
code 3. -/
theorem C8_signaled_exit_witness :
    osStatus (mainExitArg (childRunError (.normal 3))) ≠ 255 :=
  (C8_signaled_exit 9).2.2.1 3 (by decide)

/-- C10: whenever parseArgs succeeds, the configured timeout-signal name is a
catalog key, so the one-valued map read in the timer branch returns exactly
the catalog signal, which is never the os.Signal zero value. -/
theorem C10_timer_lookup_safe :
    ∀ (help : Bool) (nPos : Nat) (sigName : String) (durOk : Bool) (s : String),
      parseArgs help nPos sigName durOk = .parsedOk s →
      lookupSignal s = some (mapGet s) ∧ mapGet s ≠ 0 := by
  intro help nPos sigName durOk s h
  unfold parseArgs at h
  by_cases hHelp : help = true
  · rw [if_pos hHelp] at h; exact ParseOutcome.noConfusion h
  rw [if_neg hHelp] at h
  by_cases hPos : nPos < 3
  · rw [if_pos hPos] at h; exact ParseOutcome.noConfusion h
  rw [if_neg hPos] at h
  by_cases hSig : (lookupSignal sigName).isNone = true
  · rw [if_pos hSig] at h; exact ParseOutcome.noConfusion h
  rw [if_neg hSig] at h
  by_cases hDur : (!durOk) = true
  · rw [if_pos hDur] at h; exact ParseOutcome.noConfusion h
  rw [if_neg hDur] at h
  cases h
  cases hl : lookupSignal sigName with
  | none => rw [hl] at hSig; exact absurd rfl hSig
  | some v =>
    have hv : mapGet sigName = v := by unfold mapGet; rw [hl]; rfl
    rw [hv]
    exact ⟨rfl, lookupSignal_ne_zero hl⟩

/-- C10 witness: the theorem at a successful concrete parse with the default
signal name. -/
theorem C10_timer_lookup_safe_witness :
    lookupSignal "SIGTERM" = some (mapGet "SIGTERM") ∧ mapGet "SIGTERM" ≠ 0 :=
  C10_timer_lookup_safe false 3 "SIGTERM" true "SIGTERM" (by decide)

/-- C2: (over the spec-modelled override feature) a configured override exit
code replaces the otherwise-used code exactly on the deadline-timer path; on
the natural-completion and forwarded-signal paths, and whenever no override
is configured, the otherwise-used code stands. -/
theorem C2_override_exit :
    ∀ (o childCode : Int) (path : TerminationPath),
      exitWithOverride (some o) .deadlineTimer childCode = o
      ∧ (path ≠ .deadlineTimer →
          ∀ ov : Option Int, exitWithOverride ov path childCode = childCode)
      ∧ exitWithOverride none path childCode = childCode := by
  intro o c path
  refine ⟨rfl, ?_, ?_⟩
  · intro hp ov
    cases path with
    | natural => cases ov <;> rfl
    | forwardedSignal => cases ov <;> rfl
    | deadlineTimer => exact absurd rfl hp
  · cases path <;> rfl

/-- C2 witness: the theorem at override 42, child code 7, on the timer and
forwarded paths. -/
theorem C2_override_exit_witness :
    exitWithOverride (some 42) .deadlineTimer 7 = 42
    ∧ exitWithOverride (some 42) .forwardedSignal 7 = 7 :=
  ⟨(C2_override_exit 42 7 .forwardedSignal).1,
   (C2_override_exit 42 7 .forwardedSignal).2.1 (by decide) (some 42)⟩

end Gcbw
